import Mathlib

/-!
Verification development for the distributed analysis runner
(`cellprofiler/analysis.py`).  The Python source is shallowly embedded:
pure fragments become Lean functions, the controller and job-server
threads become explicit state-passing step functions driven by command
lists, and Python exceptions become `Except` errors.  Measurement-store
status records are modelled as `Nat → Option String` (image set number
to stored status string, `none` when the record is missing).
-/

namespace CPAnalysis

/-- Python exception kinds raised by the embedded code paths. -/
inductive PyError where
  | assertionError
  | attributeError
  | typeError
  | indexError
  | loadError
  | valueError
  deriving DecidableEq, Repr

/-! ## Measurement status store (AnalysisRunner.STATUS_* constants) -/

def STATUS : String := "ProcessingStatus"

def STATUS_UNPROCESSED : String := "Unprocessed"

def STATUS_IN_PROCESS : String := "InProcess"

def STATUS_DONE : String := "Done"

/-- Status feature of the working measurements store: image set number to
the stored `ProcessingStatus` string (`none` when no record exists). -/
abbrev Measurements := Nat → Option String

/-- Write `m[IMAGE, STATUS, n] = v`. -/
def setStatus (m : Measurements) (n : Nat) (v : String) : Measurements :=
  fun k => if k = n then some v else m k

/-- Rank used to compare statuses along the intended progression
Unprocessed (1) to InProcess (2) to Done (3); missing or foreign
values rank 0. -/
def statusRank : Option String → Nat
  | none => 0
  | some s =>
      if s = STATUS_DONE then 3
      else if s = STATUS_IN_PROCESS then 2
      else if s = STATUS_UNPROCESSED then 1
      else 0

/-- Status reset pass of `AnalysisRunner.interface` (lines 256-260):
for each image set in `range(image_set_start, image_set_end)`, set the
status to Unprocessed if `overwrite`, or the record is missing, or the
current value is not Done. -/
def resetPass (overwrite : Bool) (start endN : Nat) (m : Measurements) : Measurements :=
  (List.range' start (endN - start)).foldl
    (fun acc n =>
      if overwrite || (acc n).isNone || (acc n != some STATUS_DONE) then
        setStatus acc n STATUS_UNPROCESSED
      else acc)
    m

/-! ## Grouped job construction (interface lines 264-271, 292-293)

The Python code builds `job_groups` as a dict from group number to a
list of `(group_index, image_set_number)` tuples, then executes

  job_groups[group_number] = [[isn for _, isn in sorted(job_groups[group_number])]
                              for group_number in job_groups]

In Python 2 the comprehension variable leaks, so after evaluating the
right-hand side `group_number` is the last dict key; the assignment
replaces only that key's entry with the list of all sorted image lists.
Finally `for job in job_groups:` iterates the *keys* of the dict, so the
items put on `work_queue` are group numbers, not image-set lists.  The
embedding reproduces these semantics exactly. -/

/-- A value held by the Python `job_groups` dict: either the
accumulated `(group_index, image_set_number)` tuples, or the
list-of-lists written by the buggy assignment. -/
inductive PyVal where
  | tuples : List (Nat × Nat) → PyVal
  | lists : List (List Nat) → PyVal
  deriving DecidableEq, Repr

/-- Python dict with Nat keys, modelled as an association list in
insertion order. -/
abbrev PyDict := List (Nat × PyVal)

def dictGetTuples (d : PyDict) (k : Nat) : List (Nat × Nat) :=
  match d.lookup k with
  | some (PyVal.tuples t) => t
  | _ => []

def dictSet (d : PyDict) (k : Nat) (v : PyVal) : PyDict :=
  if d.any (fun p => p.1 == k) then
    d.map (fun p => if p.1 == k then (k, v) else p)
  else d ++ [(k, v)]

/-- Lexicographic comparison on `(group_index, image_set_number)`
pairs, as Python's `sorted` orders tuples. -/
def pairLe (a b : Nat × Nat) : Bool :=
  a.1 < b.1 || (a.1 == b.1 && a.2 ≤ b.2)

def insertPair (a : Nat × Nat) : List (Nat × Nat) → List (Nat × Nat)
  | [] => [a]
  | b :: t => if pairLe a b then a :: b :: t else b :: insertPair a t

def sortPairs : List (Nat × Nat) → List (Nat × Nat)
  | [] => []
  | a :: t => insertPair a (sortPairs t)

/-- Dict-building loop (lines 266-270) together with the leaked loop
variable `group_number` (its value after the for loop). -/
def buildJobGroupsLoop (gnum gidx : Nat → Nat) (start endN : Nat) : PyDict × Nat :=
  (List.range' start (endN - start)).foldl
    (fun acc n =>
      let d := acc.1
      let g := gnum n
      (dictSet d g (PyVal.tuples (dictGetTuples d g ++ [(gidx n, n)])), g))
    ([], 0)

/-- The buggy assignment on line 271.  The right-hand comprehension
iterates every key, producing all sorted image lists and leaking the
last key into `group_number`; only that key's dict entry is replaced. -/
def buggyAssign (gnum gidx : Nat → Nat) (start endN : Nat) : PyDict :=
  let d := (buildJobGroupsLoop gnum gidx start endN).1
  let keys := d.map Prod.fst
  let rhs := PyVal.lists (keys.map (fun g => (sortPairs (dictGetTuples d g)).map Prod.snd))
  match keys.getLast? with
  | some leaked => dictSet d leaked rhs
  | none => d

/-- An item placed on `work_queue`: in the non-grouped path a list of
image-set numbers, in the grouped path (because of the line-271 bug and
dict iteration over keys) a bare group number. -/
inductive PyJob where
  | ints : List Nat → PyJob
  | key : Nat → PyJob
  deriving DecidableEq, Repr

/-- Grouped-path work items: `for job in job_groups` iterates the dict
keys, each put as `(job, True)` (lines 292-293). -/
def groupedWorkItems (gnum gidx : Nat → Nat) (start endN : Nat) : List (PyJob × Bool) :=
  ((buggyAssign gnum gidx start endN).map Prod.fst).map (fun g => (PyJob.key g, true))

/-- Non-grouped work items (line 274): one singleton job per image set,
each put as `(job, False)`. -/
def nonGroupedWorkItems (start endN : Nat) : List (PyJob × Bool) :=
  (List.range' start (endN - start)).map (fun n => (PyJob.ints [n], false))

/-! ## Lifecycle events posted via `post_event` -/

inductive AEvent where
  | started
  | progress (unprocessed inProcess doneCount : Nat)
  | pausedEv
  | resumedEv
  | cancelledEv
  | finished (cancelled : Bool)
  deriving DecidableEq, Repr

/-! ## Controller pre-loop (`AnalysisRunner.interface`, lines 241-293) -/

/-- Result of running `interface` from its entry through job enqueuing
(or through its early return when `prepare_group` fails; on that path
this is the complete execution of the function, so `events` is every
event the controller posts). -/
structure PreResult where
  m : Measurements
  events : List AEvent
  workQueue : List (PyJob × Bool)
  groupingNeeded : Bool
  cancelled : Bool
  analysisIdCleared : Bool
  prepareGroupCalled : Bool

/-- Embedding of `interface` up to the main loop.  Order follows the
source: post `AnalysisStarted` (line 253), reset statuses (256-260),
then either grouped job construction (264-271) or the non-grouped path
(272-286) which calls `prepare_group` once and, on refusal, cancels,
clears the analysis id and returns immediately; finally the jobs are
put on `work_queue` (292-293). -/
def interfacePre (hasGroups : Bool) (gnum gidx : Nat → Nat) (prepareGroupOk : Bool)
    (overwrite : Bool) (start endN : Nat) (m0 : Measurements) : PreResult :=
  let ev := [AEvent.started]
  let m1 := resetPass overwrite start endN m0
  if hasGroups then
    { m := m1, events := ev, workQueue := groupedWorkItems gnum gidx start endN,
      groupingNeeded := true, cancelled := false, analysisIdCleared := false,
      prepareGroupCalled := false }
  else
    if prepareGroupOk then
      { m := m1, events := ev, workQueue := nonGroupedWorkItems start endN,
        groupingNeeded := false, cancelled := false, analysisIdCleared := false,
        prepareGroupCalled := true }
    else
      { m := m1, events := ev, workQueue := [], groupingNeeded := false,
        cancelled := true, analysisIdCleared := true, prepareGroupCalled := true }

/-! ## Main-loop drains (interface lines 301-310) -/

/-- Write status `v` for every image set of every job in `batch`, in
order (the inner `for image_set_number in job` loop). -/
def drainWith (v : String) (batch : List (List Nat)) (m : Measurements) : Measurements :=
  batch.foldl (fun acc job => job.foldl (fun a n => setStatus a n v) acc) m

/-- Drain of `returned_measurements_queue` (lines 301-304): every image
set of every reported job is set to Done. -/
def drainReturned (batch : List (List Nat)) (m : Measurements) : Measurements :=
  drainWith STATUS_DONE batch m

/-- Drain of `in_process_queue` (lines 307-310): every image set of
every dispatched job is set to InProcess. -/
def drainInProcess (batch : List (List Nat)) (m : Measurements) : Measurements :=
  drainWith STATUS_IN_PROCESS batch m

/-- One drain phase of the controller's main loop: the returned
measurements are drained first, then the in-process notifications
(source order, lines 300-310). -/
def drainPhase (ret inproc : List (List Nat)) (m : Measurements) : Measurements :=
  drainInProcess inproc (drainReturned ret m)

/-! ## Job-server WorkRequest handling (lines 375-389, 416-420) -/

inductive JobType where
  | group
  | image
  | noJob
  deriving DecidableEq, Repr

structure WorkReplyMsg where
  jobtype : JobType
  images : Option String
  deriving DecidableEq, Repr

def commaJoin (l : List Nat) : String :=
  String.intercalate "," (l.map toString)

/-- Outcome of serving one WorkRequest: the reply sent, the remaining
`work_queue`, the job pushed onto `in_process_queue` (if any) and
whether the controller's condition variable was notified
(`queue_dispatched_job`). -/
structure WorkDispatch where
  reply : WorkReplyMsg
  remaining : List (PyJob × Bool)
  inProcessPush : Option PyJob
  controllerNotified : Bool
  deriving DecidableEq, Repr

/-- Embedding of the WorkRequest branch.  A non-empty queue pops one
`(job, grouping_needed)` pair; with grouping the reply joins the job's
numbers with commas (which raises TypeError if the job is a bare group
number, the shape the line-271 bug produces), otherwise the reply is
`str(job[0])` (IndexError on an empty list, TypeError on a bare
number).  On success the popped job goes to `in_process_queue` and the
controller is notified; an empty queue replies NONE with no images
field. -/
def handleWorkRequest (wq : List (PyJob × Bool)) : Except PyError WorkDispatch :=
  match wq with
  | [] =>
      Except.ok { reply := { jobtype := JobType.noJob, images := none },
                  remaining := [], inProcessPush := none, controllerNotified := false }
  | (job, groupingNeeded) :: rest =>
      if groupingNeeded then
        match job with
        | PyJob.ints l =>
            Except.ok { reply := { jobtype := JobType.group, images := some (commaJoin l) },
                        remaining := rest, inProcessPush := some job,
                        controllerNotified := true }
        | PyJob.key _ => Except.error PyError.typeError
      else
        match job with
        | PyJob.ints [] => Except.error PyError.indexError
        | PyJob.ints (n :: _) =>
            Except.ok { reply := { jobtype := JobType.image, images := some (toString n) },
                        remaining := rest, inProcessPush := some job,
                        controllerNotified := true }
        | PyJob.key _ => Except.error PyError.typeError

/-! ## Job server (`AnalysisRunner.jobserver`, lines 339-411)

The job-server thread is modelled as a step function over an explicit
state, driven by a command list.  `pauseCmd` / `resumeCmd` /
`cancelCmd` are the flag writes performed by the external control
methods (lines 210-223); `endAnalysis` is the interface thread setting
`self.analysis_id = False` (lines 285, 337); `iter req` is one pass of
the serving loop, with `req` the request popped from the boundary inbox
(`none` when the inbox is empty, so the loop waits and continues).
Once the loop has exited, or a handler has raised, the thread is gone
and the state is frozen. -/

/-- A worker request popped from the boundary inbox.  For a
MeasurementsReport, `loadOk` is whether `load_measurements` succeeds on
the reported path and `imageSets` the parsed `image_set_numbers`. -/
inductive JSReq where
  | pipelineReq
  | initialMeasurementsReq
  | workReq
  | measurementsReport (loadOk : Bool) (imageSets : List Nat)
  | interactionReq
  | displayReq
  | exceptionRep
  | unknownReq
  deriving DecidableEq, Repr

/-- A reply sent by the job server. -/
inductive JSReply where
  | pipelineBlob
  | initialPath
  | work (msg : WorkReplyMsg)
  | thanks
  deriving DecidableEq, Repr

structure JSState where
  paused : Bool
  iWasPausedBefore : Bool
  cancelled : Bool
  alive : Bool
  workQueue : List (PyJob × Bool)
  inProcessQueue : List PyJob
  returnedQueue : List (List Nat)
  anns : List (String × String)
  events : List AEvent
  replies : List JSReply
  forwarded : List JSReq
  exited : Bool
  raised : Option PyError
  deriving DecidableEq, Repr

/-- Request dispatch (lines 370-405).  WorkRequest runs
`handleWorkRequest`; a TypeError or IndexError there occurs after the
pop, so the queue head is lost and the exception propagates.
MeasurementsReport replies THANKS first, then either queues the
received measurements or re-raises the load failure (lines 390-400:
the `except` clause is a bare `raise`).  Interaction, display and
exception requests are forwarded upward; anything else raises
ValueError (line 405). -/
def handleReq (s : JSState) (r : JSReq) : JSState :=
  match r with
  | JSReq.pipelineReq => { s with replies := s.replies ++ [JSReply.pipelineBlob] }
  | JSReq.initialMeasurementsReq => { s with replies := s.replies ++ [JSReply.initialPath] }
  | JSReq.workReq =>
      match handleWorkRequest s.workQueue with
      | Except.ok d =>
          { s with replies := s.replies ++ [JSReply.work d.reply],
                   workQueue := d.remaining,
                   inProcessQueue := s.inProcessQueue ++
                     (match d.inProcessPush with
                      | some j => [j]
                      | none => []) }
      | Except.error e => { s with workQueue := s.workQueue.tail, raised := some e }
  | JSReq.measurementsReport loadOk nums =>
      let s1 := { s with replies := s.replies ++ [JSReply.thanks] }
      if loadOk then { s1 with returnedQueue := s1.returnedQueue ++ [nums] }
      else { s1 with raised := some PyError.loadError }
  | JSReq.interactionReq => { s with forwarded := s.forwarded ++ [r] }
  | JSReq.displayReq => { s with forwarded := s.forwarded ++ [r] }
  | JSReq.exceptionRep => { s with forwarded := s.forwarded ++ [r] }
  | JSReq.unknownReq => { s with raised := some PyError.valueError }

/-- Commands driving the job-server thread: external flag writes, the
interface clearing the analysis id, or one serving-loop iteration with
the request popped from the inbox (`none`: inbox empty). -/
inductive JSCmd where
  | pauseCmd
  | resumeCmd
  | cancelCmd
  | endAnalysis
  | iter (req : Option JSReq)
  deriving DecidableEq, Repr

/-- Pause block of the serving loop (lines 359-361): entering a pause
episode posts AnalysisPaused once and records `i_was_paused_before`. -/
def jsPauseBlock (s : JSState) : JSState :=
  if s.paused && !s.iWasPausedBefore then
    { s with events := s.events ++ [AEvent.pausedEv], iWasPausedBefore := true }
  else s

/-- Resume block (lines 366-368): leaving a pause episode posts
AnalysisResumed and clears `i_was_paused_before`. -/
def jsResumeBlock (s : JSState) : JSState :=
  if s.iWasPausedBefore then
    { s with events := s.events ++ [AEvent.resumedEv], iWasPausedBefore := false }
  else s

/-- One pass of the serving loop (lines 350-405) in source order:
check `self.analysis_id == analysis_id` (exit, publishing the DONE
announcement of line 408, when it fails), announce
`(request_address, analysis_id)` (line 352), break on `cancelled`
after posting AnalysisCancelled (354-356, again reaching the DONE
announcement), the pause block, the wait-and-continue when paused or
the inbox is empty (362-364), the resume block, then request
dispatch. -/
def jsIter (addr id : String) (s : JSState) (req : Option JSReq) : JSState :=
  if !s.alive then { s with exited := true, anns := s.anns ++ [("DONE", id)] }
  else
    let s1 := { s with anns := s.anns ++ [(addr, id)] }
    if s1.cancelled then
      { s1 with events := s1.events ++ [AEvent.cancelledEv],
                exited := true, anns := s1.anns ++ [("DONE", id)] }
    else
      let s2 := jsPauseBlock s1
      if s2.paused || req.isNone then s2
      else
        match req with
        | none => jsResumeBlock s2
        | some r => handleReq (jsResumeBlock s2) r

/-- One command applied to the job-server state.  A raised exception
propagates out of the loop (the `raise` is not caught anywhere in
`jobserver`), so the DONE announcement is skipped and the thread is
dead: the state freezes.  After a normal exit the thread is equally
gone. -/
def jsStep (addr id : String) (s : JSState) (c : JSCmd) : JSState :=
  if s.exited || s.raised.isSome then s
  else
    match c with
    | JSCmd.pauseCmd => { s with paused := true }
    | JSCmd.resumeCmd => { s with paused := false }
    | JSCmd.cancelCmd => { s with cancelled := true }
    | JSCmd.endAnalysis => { s with alive := false }
    | JSCmd.iter req => jsIter addr id s req

/-- Initial job-server state: flags clear, `work_queue` as filled by the
controller, loop not yet exited. -/
def jsInit (wq : List (PyJob × Bool)) : JSState :=
  { paused := false, iWasPausedBefore := false, cancelled := false, alive := true,
    workQueue := wq, inProcessQueue := [], returnedQueue := [],
    anns := [], events := [], replies := [], forwarded := [],
    exited := false, raised := none }

def jsRun (addr id : String) (wq : List (PyJob × Bool)) (cmds : List JSCmd) : JSState :=
  cmds.foldl (jsStep addr id) (jsInit wq)

/-! ## Analysis facade (`Analysis`, lines 44-126) -/

/-- Facade state: `analysis_in_progress` is Python's `False` (`none`)
or the run's uuid hex string (`some id`); `runnerPresent` records
whether `self.runner` is set. -/
structure AnalysisState where
  analysis_in_progress : Option String
  runnerPresent : Bool
  deriving DecidableEq, Repr

/-- Side-effecting steps performed by `Analysis.start` (lines 88-98)
and `AnalysisRunner.start` (lines 189-196), in execution order. -/
inductive StartAction where
  | constructRunner
  | prepareRun
  | flushInitialMeasurements
  | launchInterfaceThread
  | launchJobserverThread
  deriving DecidableEq, Repr

/-- `AnalysisRunner.start`: one synchronous `prepare_run` on a
workspace over the initial measurements, a flush of that store, then
the two daemon-thread launches. -/
def runnerStartActions : List StartAction :=
  [StartAction.prepareRun, StartAction.flushInitialMeasurements,
   StartAction.launchInterfaceThread, StartAction.launchJobserverThread]

/-- `Analysis.start`: under the runner lock, assert no run in progress
(an in-progress run raises AssertionError — the spec's BusyError),
record the fresh uuid, construct the Runner, run
`AnalysisRunner.start`, and return the new id.  `freshId` stands for
`uuid.uuid1().hex`. -/
def analysisStart (s : AnalysisState) (freshId : String) :
    Except PyError (String × AnalysisState × List StartAction) :=
  match s.analysis_in_progress with
  | some _ => Except.error PyError.assertionError
  | none =>
      Except.ok (freshId,
                 { analysis_in_progress := some freshId, runnerPresent := true },
                 StartAction.constructRunner :: runnerStartActions)

/-- `Analysis.check` (lines 117-126): a falsy `analysis_in_progress`
returns False without evaluating `self.runner.check()`; `runnerCheck`
stands for whatever that evaluation would yield (an error when the
runner handle is `None`). -/
def analysisCheck (s : AnalysisState) (runnerCheck : Except PyError Bool) :
    Except PyError Bool :=
  match s.analysis_in_progress with
  | some _ => runnerCheck
  | none => Except.ok false

/-- `Analysis.pause_analysis` (lines 100-103): asserts a run is in
progress, then sets the runner's paused flag. -/
def pause_analysis (s : AnalysisState) : Except PyError Unit :=
  match s.analysis_in_progress with
  | some _ => Except.ok ()
  | none => Except.error PyError.assertionError

/-- `Analysis.resume_analysis` (lines 105-108). -/
def resume_analysis (s : AnalysisState) : Except PyError Unit :=
  match s.analysis_in_progress with
  | some _ => Except.ok ()
  | none => Except.error PyError.assertionError

/-- `Analysis.cancel_analysis` (lines 110-115): asserts a run is in
progress, clears the in-progress handle, cancels the runner and drops
the runner reference. -/
def cancel_analysis (s : AnalysisState) : Except PyError AnalysisState :=
  match s.analysis_in_progress with
  | some _ => Except.ok { analysis_in_progress := none, runnerPresent := false }
  | none => Except.error PyError.assertionError

/-! ## Worker pool (`AnalysisRunner.start_workers` / `stop_workers`,
lines 434-499)

`stop_workers` iterates `cls.deadman_swtiches` — a misspelling of the
`deadman_switches` attribute that `start_workers` populates — so
attribute lookup is modelled explicitly. -/

inductive AttrVal where
  | procs : List Nat → AttrVal
  | streams : List Nat → AttrVal
  | queueVal
  deriving DecidableEq, Repr

/-- Class-level attribute dictionary of `AnalysisRunner` relevant to
the worker pool. -/
structure WorkerPoolState where
  attrs : List (String × AttrVal)
  deriving DecidableEq, Repr

/-- Python attribute access: a missing name raises AttributeError. -/
def getattrCls (s : WorkerPoolState) (name : String) : Except PyError AttrVal :=
  match s.attrs.lookup name with
  | some v => Except.ok v
  | none => Except.error PyError.attributeError

def setattrCls (s : WorkerPoolState) (name : String) (v : AttrVal) : WorkerPoolState :=
  if s.attrs.any (fun p => p.1 == name) then
    { attrs := s.attrs.map (fun p => if p.1 == name then (name, v) else p) }
  else { attrs := s.attrs ++ [(name, v)] }

/-- Pool state after `start_workers(num)` (lines 434-492): `num` worker
process handles and their deadman stdin streams (both numbered
`0..num-1`), plus the announce queue. -/
def start_workers (num : Nat) : WorkerPoolState :=
  { attrs := [("workers", AttrVal.procs (List.range num)),
              ("deadman_switches", AttrVal.streams (List.range num)),
              ("announce_queue", AttrVal.queueVal)] }

/-- Embedding of `stop_workers` (lines 494-499) as written: it reads
`cls.deadman_swtiches` (note the transposed letters), closes each
stream it finds there, then clears `workers` and `deadman_swtiches`.
On success it returns the new state and the list of closed streams. -/
def stop_workers (s : WorkerPoolState) : Except PyError (WorkerPoolState × List Nat) :=
  match getattrCls s "deadman_swtiches" with
  | Except.error e => Except.error e
  | Except.ok v =>
      let closed := match v with
        | AttrVal.streams l => l
        | _ => []
      let s1 := setattrCls s "workers" (AttrVal.procs [])
      let s2 := setattrCls s1 "deadman_swtiches" (AttrVal.streams [])
      Except.ok (s2, closed)

/-! ## Auxiliary observers used by the theorems -/

/-- Boolean membership of an image-set number in a job. -/
def occursIn (n : Nat) : List Nat → Bool
  | [] => false
  | k :: t => (k == n) || occursIn n t

/-- Boolean membership over a batch of jobs. -/
def occursInBatch (n : Nat) : List (List Nat) → Bool
  | [] => false
  | job :: rest => occursIn n job || occursInBatch n rest

/-- Number of AnalysisPaused events in a trace. -/
def countPaused : List AEvent → Nat
  | [] => 0
  | AEvent.pausedEv :: t => countPaused t + 1
  | _ :: t => countPaused t

/-- Alternation scanner for the AnalysisPaused / AnalysisResumed
subsequence: the accumulator is `some true` when the next such event
must be Paused, `some false` when it must be Resumed, `none` once the
alternation has been violated. -/
def altF : Option Bool → AEvent → Option Bool
  | some b, AEvent.pausedEv => if b then some false else none
  | some b, AEvent.resumedEv => if b then none else some true
  | acc, _ => acc

/-- Scan of a whole trace; `isSome` iff Paused/Resumed alternate
strictly, beginning with Paused. -/
def altScan (l : List AEvent) : Option Bool :=
  l.foldl altF (some true)

/-- Number of `("DONE", id)` announcements in a published sequence. -/
def doneCount (id : String) : List (String × String) → Nat
  | [] => 0
  | (tag, i) :: t => (if tag = "DONE" ∧ i = id then 1 else 0) + doneCount id t

/-- Concrete grouped store for the scenario of §8.3: image sets 1 and 2
carry group number 1 (indices 1 and 2), image set 3 carries group
number 2 (index 1). -/
def gnumEx (n : Nat) : Nat := if n ≤ 2 then 1 else 2

def gidxEx (n : Nat) : Nat := if n ≤ 2 then n else 1

/-- Alternation invariant of the job-server thread: the
Paused/Resumed subsequence of the posted events alternates, and the
next expected event is Paused exactly when `i_was_paused_before` is
clear. -/
def AltInv (s : JSState) : Prop :=
  altScan s.events = some (!s.iWasPausedBefore)

/-- Invariant bounding AnalysisPaused posts over a command segment that
contains no resume: at most one more than the `C` already posted, and
reaching `C + 1` forces a live pause episode. -/
def PauseBound (C : Nat) (s : JSState) : Prop :=
  countPaused s.events ≤ C + 1 ∧
  (countPaused s.events = C + 1 → s.iWasPausedBefore = true ∧ s.paused = true)

/-- DONE-announcement invariant: before the serving loop exits no
`("DONE", id)` has been published; once it exits, exactly one has, and
it is the last announcement. -/
def DoneInv (id : String) (s : JSState) : Prop :=
  (s.exited = false → doneCount id s.anns = 0) ∧
  (s.exited = true → doneCount id s.anns = 1 ∧ s.anns.getLast? = some ("DONE", id))

/-! ## Helper lemmas -/

theorem foldlInv {σ α : Type _} (f : σ → α → σ) (P : σ → Prop)
    (hstep : ∀ s a, P s → P (f s a)) :
    ∀ (l : List α) (s : σ), P s → P (l.foldl f s) := by
  intro l
  induction l with
  | nil => intro s h; exact h
  | cons a t ih => intro s h; exact ih (f s a) (hstep s a h)

theorem foldlInvOn {σ α : Type _} (f : σ → α → σ) (P : σ → Prop) (Q : α → Prop)
    (hstep : ∀ s a, Q a → P s → P (f s a)) :
    ∀ (l : List α) (s : σ), (∀ a ∈ l, Q a) → P s → P (l.foldl f s) := by
  intro l
  induction l with
  | nil => intro s _ h; exact h
  | cons a t ih =>
      intro s hq h
      exact ih (f s a) (fun b hb => hq b (List.mem_cons_of_mem a hb))
        (hstep s a (hq a (List.mem_cons_self a t)) h)

theorem innerFold_not_occurs (v : String) :
    ∀ (job : List Nat) (m : Measurements) (n : Nat), occursIn n job = false →
      job.foldl (fun a k => setStatus a k v) m n = m n := by
  intro job
  induction job with
  | nil => intro m n _; rfl
  | cons k t ih =>
      intro m n h
      simp only [occursIn, Bool.or_eq_false_iff] at h
      have hk : ¬(n = k) := by
        intro e
        subst e
        simp at h
      rw [List.foldl_cons, ih _ n h.2]
      simp [setStatus, hk]

theorem innerFold_occurs (v : String) :
    ∀ (job : List Nat) (m : Measurements) (n : Nat), occursIn n job = true →
      job.foldl (fun a k => setStatus a k v) m n = some v := by
  intro job
  induction job with
  | nil => intro m n h; simp [occursIn] at h
  | cons k t ih =>
      intro m n h
      by_cases ht : occursIn n t = true
      · rw [List.foldl_cons, ih _ n ht]
      · have hf : occursIn n t = false := by simpa using ht
        simp only [occursIn, hf, Bool.or_false] at h
        have hk : n = k := by
          have := of_decide_eq_true (by simpa [BEq.beq] using h)
          omega
        rw [List.foldl_cons, innerFold_not_occurs v t _ n hf]
        subst hk
        simp [setStatus]

theorem drainWith_cons (v : String) (job : List Nat) (rest : List (List Nat))
    (m : Measurements) :
    drainWith v (job :: rest) m =
      drainWith v rest (job.foldl (fun a k => setStatus a k v) m) := rfl

theorem drainWith_not_occurs (v : String) :
    ∀ (batch : List (List Nat)) (m : Measurements) (n : Nat),
      occursInBatch n batch = false → drainWith v batch m n = m n := by
  intro batch
  induction batch with
  | nil => intro m n _; rfl
  | cons job rest ih =>
      intro m n h
      simp only [occursInBatch, Bool.or_eq_false_iff] at h
      rw [drainWith_cons, ih _ n h.2, innerFold_not_occurs v job m n h.1]

theorem drainWith_occurs (v : String) :
    ∀ (batch : List (List Nat)) (m : Measurements) (n : Nat),
      occursInBatch n batch = true → drainWith v batch m n = some v := by
  intro batch
  induction batch with
  | nil => intro m n h; simp [occursInBatch] at h
  | cons job rest ih =>
      intro m n h
      by_cases hr : occursInBatch n rest = true
      · rw [drainWith_cons, ih _ n hr]
      · have hrf : occursInBatch n rest = false := by simpa using hr
        simp only [occursInBatch, hrf, Bool.or_false] at h
        rw [drainWith_cons, drainWith_not_occurs v rest _ n hrf,
          innerFold_occurs v job m n h]

theorem statusRank_le_three (o : Option String) : statusRank o ≤ 3 := by
  cases o with
  | none => simp [statusRank]
  | some s =>
      simp only [statusRank]
      split_ifs <;> omega

theorem statusRank_le_two_of_ne_done (o : Option String)
    (h : o ≠ some STATUS_DONE) : statusRank o ≤ 2 := by
  cases o with
  | none => simp [statusRank]
  | some s =>
      have hs : ¬(s = STATUS_DONE) := by
        intro e
        exact h (by rw [e])
      simp only [statusRank, if_neg hs]
      split_ifs <;> omega

theorem countPaused_append :
    ∀ (l1 l2 : List AEvent), countPaused (l1 ++ l2) = countPaused l1 + countPaused l2 := by
  intro l1
  induction l1 with
  | nil => intro l2; simp [countPaused]
  | cons e t ih =>
      intro l2
      cases e
      case pausedEv =>
        simp [countPaused, ih]
        omega
      all_goals simp [countPaused, ih]

theorem doneCount_append (id : String) :
    ∀ (l1 l2 : List (String × String)),
      doneCount id (l1 ++ l2) = doneCount id l1 + doneCount id l2 := by
  intro l1
  induction l1 with
  | nil => intro l2; simp [doneCount]
  | cons p t ih =>
      intro l2
      cases p with
      | mk tag i => simp [doneCount, ih]; omega

theorem altScan_append_one (l : List AEvent) (e : AEvent) :
    altScan (l ++ [e]) = altF (altScan l) e := by
  simp [altScan, List.foldl_append]

theorem lastOfConcat {α : Type _} (a : α) :
    ∀ (l : List α), (l ++ [a]).getLast? = some a := by
  intro l
  induction l with
  | nil => rfl
  | cons b t ih =>
      rw [List.cons_append]
      rw [List.getLast?_cons, ih]
      cases t <;> simp_all [List.getLast?]

theorem handleReq_frame (s : JSState) (r : JSReq) :
    (handleReq s r).events = s.events ∧
    (handleReq s r).iWasPausedBefore = s.iWasPausedBefore ∧
    (handleReq s r).anns = s.anns ∧
    (handleReq s r).exited = s.exited ∧
    (handleReq s r).paused = s.paused := by
  cases r with
  | workReq =>
      unfold handleReq
      cases handleWorkRequest s.workQueue <;> simp
  | measurementsReport loadOk nums =>
      unfold handleReq
      cases loadOk <;> simp
  | pipelineReq => simp [handleReq]
  | initialMeasurementsReq => simp [handleReq]
  | interactionReq => simp [handleReq]
  | displayReq => simp [handleReq]
  | exceptionRep => simp [handleReq]
  | unknownReq => simp [handleReq]

theorem jsPauseBlock_frame (s : JSState) :
    (jsPauseBlock s).anns = s.anns ∧
    (jsPauseBlock s).exited = s.exited ∧
    (jsPauseBlock s).paused = s.paused := by
  unfold jsPauseBlock
  split <;> simp

theorem jsResumeBlock_frame (s : JSState) :
    (jsResumeBlock s).anns = s.anns ∧
    (jsResumeBlock s).exited = s.exited ∧
    (jsResumeBlock s).paused = s.paused := by
  unfold jsResumeBlock
  split <;> simp

/-! ## Alternation invariant preservation -/

theorem jsPauseBlock_altInv (s : JSState) (h : AltInv s) : AltInv (jsPauseBlock s) := by
  unfold jsPauseBlock
  split
  · next hc =>
      have hw : s.iWasPausedBefore = false := by
        have hc2 : s.paused = true ∧ s.iWasPausedBefore = false := by simpa using hc
        exact hc2.2
      unfold AltInv at h ⊢
      simp only []
      rw [altScan_append_one, h, hw]
      rfl
  · exact h

theorem jsResumeBlock_altInv (s : JSState) (h : AltInv s) : AltInv (jsResumeBlock s) := by
  unfold jsResumeBlock
  split
  · next hc =>
      unfold AltInv at h ⊢
      simp only []
      rw [altScan_append_one, h, hc]
      rfl
  · exact h

theorem handleReq_altInv (s : JSState) (r : JSReq) (h : AltInv s) :
    AltInv (handleReq s r) := by
  have hf := handleReq_frame s r
  unfold AltInv at h ⊢
  rw [hf.1, hf.2.1]
  exact h

theorem jsIter_altInv (addr id : String) (s : JSState) (req : Option JSReq)
    (h : AltInv s) : AltInv (jsIter addr id s req) := by
  unfold jsIter
  split
  · exact h
  · dsimp only
    split
    · unfold AltInv at h ⊢
      simp only []
      rw [altScan_append_one, h]
      rfl
    · have h2 : AltInv (jsPauseBlock { s with anns := s.anns ++ [(addr, id)] }) :=
        jsPauseBlock_altInv _ h
      split
      · exact h2
      · cases req with
        | none => exact jsResumeBlock_altInv _ h2
        | some r => exact handleReq_altInv _ r (jsResumeBlock_altInv _ h2)

theorem jsStep_altInv (addr id : String) (s : JSState) (c : JSCmd)
    (h : AltInv s) : AltInv (jsStep addr id s c) := by
  unfold jsStep
  split
  · exact h
  · cases c with
    | pauseCmd => exact h
    | resumeCmd => exact h
    | cancelCmd => exact h
    | endAnalysis => exact h
    | iter req => exact jsIter_altInv addr id s req h

/-! ## Pause-count invariant preservation -/

theorem jsPauseBlock_pauseBound (C : Nat) (s : JSState) (h : PauseBound C s) :
    PauseBound C (jsPauseBlock s) := by
  unfold jsPauseBlock
  split
  · next hc =>
      have hc2 : s.paused = true ∧ s.iWasPausedBefore = false := by simpa using hc
      obtain ⟨h1, h2⟩ := h
      have hle : countPaused s.events ≤ C := by
        by_cases he : countPaused s.events = C + 1
        · have := (h2 he).1
          rw [hc2.2] at this
          exact Bool.noConfusion this
        · omega
      unfold PauseBound
      simp only []
      rw [countPaused_append]
      have hone : countPaused [AEvent.pausedEv] = 1 := rfl
      rw [hone]
      constructor
      · omega
      · intro _
        exact ⟨by simp, hc2.1⟩
  · exact h

theorem jsResumeBlock_pauseBound (C : Nat) (s : JSState) (hp : s.paused = false)
    (h : PauseBound C s) : PauseBound C (jsResumeBlock s) := by
  unfold jsResumeBlock
  split
  · obtain ⟨h1, h2⟩ := h
    unfold PauseBound
    simp only []
    rw [countPaused_append]
    have hz : countPaused [AEvent.resumedEv] = 0 := rfl
    rw [hz]
    constructor
    · omega
    · intro he
      have hpt := (h2 (by omega)).2
      rw [hp] at hpt
      exact Bool.noConfusion hpt
  · exact h

theorem handleReq_pauseBound (C : Nat) (s : JSState) (r : JSReq) (h : PauseBound C s) :
    PauseBound C (handleReq s r) := by
  have hf := handleReq_frame s r
  unfold PauseBound at h ⊢
  rw [hf.1, hf.2.1, hf.2.2.2.2]
  exact h

theorem jsIter_pauseBound (addr id : String) (C : Nat) (s : JSState) (req : Option JSReq)
    (h : PauseBound C s) : PauseBound C (jsIter addr id s req) := by
  unfold jsIter
  split
  · exact h
  · dsimp only
    split
    · unfold PauseBound at h ⊢
      simp only []
      rw [countPaused_append]
      have hz : countPaused [AEvent.cancelledEv] = 0 := rfl
      rw [hz]
      simpa using h
    · have h2 : PauseBound C (jsPauseBlock { s with anns := s.anns ++ [(addr, id)] }) :=
        jsPauseBlock_pauseBound C _ h
      split
      · exact h2
      · next hcond =>
          have hpb : (jsPauseBlock { s with anns := s.anns ++ [(addr, id)] }).paused = false ∧
              ¬req = none := by
            simpa using hcond
          cases req with
          | none => exact absurd rfl hpb.2
          | some r =>
              exact handleReq_pauseBound C _ r (jsResumeBlock_pauseBound C _ hpb.1 h2)

theorem jsStep_pauseBound (addr id : String) (C : Nat) (s : JSState) (c : JSCmd)
    (hc : c ≠ JSCmd.resumeCmd) (h : PauseBound C s) : PauseBound C (jsStep addr id s c) := by
  unfold jsStep
  split
  · exact h
  · cases c with
    | pauseCmd =>
        obtain ⟨h1, h2⟩ := h
        exact ⟨h1, fun he => ⟨(h2 he).1, rfl⟩⟩
    | resumeCmd => exact absurd rfl hc
    | cancelCmd => exact h
    | endAnalysis => exact h
    | iter req => exact jsIter_pauseBound addr id C s req h

/-! ## DONE-announcement invariant preservation -/

theorem handleReq_doneInv (id : String) (s : JSState) (r : JSReq) (h : DoneInv id s) :
    DoneInv id (handleReq s r) := by
  have hf := handleReq_frame s r
  unfold DoneInv at h ⊢
  rw [hf.2.2.1, hf.2.2.2.1]
  exact h

theorem jsIter_doneInv (addr id : String) (haddr : addr ≠ "DONE") (s : JSState)
    (req : Option JSReq) (hex : s.exited = false) (h : DoneInv id s) :
    DoneInv id (jsIter addr id s req) := by
  have h0 : doneCount id s.anns = 0 := h.1 hex
  unfold jsIter
  split
  · unfold DoneInv
    constructor
    · intro hfalse
      exact Bool.noConfusion hfalse
    · intro _
      simp only []
      constructor
      · rw [doneCount_append, h0]
        simp [doneCount]
      · exact lastOfConcat _ _
  · dsimp only
    have h1 : doneCount id (s.anns ++ [(addr, id)]) = 0 := by
      rw [doneCount_append, h0]
      simp [doneCount, haddr]
    split
    · unfold DoneInv
      constructor
      · intro hfalse
        exact Bool.noConfusion hfalse
      · intro _
        simp only []
        constructor
        · rw [doneCount_append, h1]
          simp [doneCount]
        · exact lastOfConcat _ _
    · have hinv1 : DoneInv id { s with anns := s.anns ++ [(addr, id)] } := by
        unfold DoneInv
        constructor
        · intro _
          exact h1
        · intro he
          have he2 : s.exited = true := he
          rw [hex] at he2
          exact Bool.noConfusion he2
      have h2 : DoneInv id (jsPauseBlock { s with anns := s.anns ++ [(addr, id)] }) := by
        have hf := jsPauseBlock_frame { s with anns := s.anns ++ [(addr, id)] }
        unfold DoneInv at hinv1 ⊢
        rw [hf.1, hf.2.1]
        exact hinv1
      split
      · exact h2
      · cases req with
        | none =>
            have hf := jsResumeBlock_frame (jsPauseBlock { s with anns := s.anns ++ [(addr, id)] })
            unfold DoneInv at h2 ⊢
            rw [hf.1, hf.2.1]
            exact h2
        | some r =>
            have h3 : DoneInv id
                (jsResumeBlock (jsPauseBlock { s with anns := s.anns ++ [(addr, id)] })) := by
              have hf := jsResumeBlock_frame (jsPauseBlock { s with anns := s.anns ++ [(addr, id)] })
              unfold DoneInv at h2 ⊢
              rw [hf.1, hf.2.1]
              exact h2
            exact handleReq_doneInv id _ r h3

theorem jsStep_doneInv (addr id : String) (haddr : addr ≠ "DONE") (s : JSState) (c : JSCmd)
    (h : DoneInv id s) : DoneInv id (jsStep addr id s c) := by
  unfold jsStep
  split
  · exact h
  · next hguard =>
      have hex : s.exited = false := by
        simp only [Bool.or_eq_true, not_or, Bool.not_eq_true] at hguard
        exact hguard.1
      cases c with
      | pauseCmd => exact h
      | resumeCmd => exact h
      | cancelCmd => exact h
      | endAnalysis => exact h
      | iter req => exact jsIter_doneInv addr id haddr s req hex h

theorem jsRun_altInv (addr id : String) (wq : List (PyJob × Bool)) (cmds : List JSCmd) :
    AltInv (jsRun addr id wq cmds) :=
  foldlInv (jsStep addr id) AltInv (fun s c h => jsStep_altInv addr id s c h)
    cmds (jsInit wq) rfl

theorem jsSeq_pause_bound (addr id : String) (s : JSState) (cmds : List JSCmd)
    (hnr : JSCmd.resumeCmd ∉ cmds) :
    countPaused (cmds.foldl (jsStep addr id) s).events ≤ countPaused s.events + 1 :=
  (foldlInvOn (jsStep addr id) (PauseBound (countPaused s.events))
    (fun c => c ≠ JSCmd.resumeCmd)
    (fun s2 c hq h => jsStep_pauseBound addr id (countPaused s.events) s2 c hq h)
    cmds s (fun a ha e => hnr (e ▸ ha))
    ⟨Nat.le_succ _, fun he => absurd he (by omega)⟩).1

theorem jsRun_doneInv (addr id : String) (haddr : addr ≠ "DONE")
    (wq : List (PyJob × Bool)) (cmds : List JSCmd) : DoneInv id (jsRun addr id wq cmds) :=
  foldlInv (jsStep addr id) (DoneInv id)
    (fun s c h => jsStep_doneInv addr id haddr s c h) cmds (jsInit wq)
    ⟨fun _ => rfl, fun he => Bool.noConfusion he⟩

/-! ## Claim theorems -/

/-- Claim C1, counterexample.  With `overwrite = False` and image set 1
already Done, the reset pass keeps the status Done, yet the non-grouped
job construction still enqueues `[1]` as a job; serving a WorkRequest
dispatches it onto `in_process_queue`, and the controller's drain of
that queue overwrites the status with InProcess.  The status therefore
moves Done to InProcess, contradicting the claimed monotonicity and, in
particular, the claim that a drain of `in_process_queue` never
overwrites Done. -/
theorem C1_done_overwritten_counterexample :
    (interfacePre false (fun _ => 0) (fun _ => 0) true false 1 2
        (fun _ => some STATUS_DONE)).m 1 = some STATUS_DONE ∧
    (interfacePre false (fun _ => 0) (fun _ => 0) true false 1 2
        (fun _ => some STATUS_DONE)).workQueue = [(PyJob.ints [1], false)] ∧
    handleWorkRequest (interfacePre false (fun _ => 0) (fun _ => 0) true false 1 2
        (fun _ => some STATUS_DONE)).workQueue =
      Except.ok { reply := { jobtype := JobType.image, images := some "1" },
                  remaining := [], inProcessPush := some (PyJob.ints [1]),
                  controllerNotified := true } ∧
    drainPhase [] [[1]]
      (interfacePre false (fun _ => 0) (fun _ => 0) true false 1 2
        (fun _ => some STATUS_DONE)).m 1 = some STATUS_IN_PROCESS :=
  ⟨rfl, rfl, rfl, rfl⟩

/-- Claim C1, amended.  A drain cycle of the controller's main loop
(returned measurements first, then in-process notifications) only
advances an image set's status provided the in-process batch does not
mention an image set that is already Done or that also occurs in the
same cycle's returned batch; the in-process drain writes InProcess
unconditionally, so without that proviso Done is overwritten. -/
theorem C1_status_monotone_amended (ret inproc : List (List Nat)) (m : Measurements) (n : Nat)
    (h : occursInBatch n inproc = true →
      (m n ≠ some STATUS_DONE ∧ occursInBatch n ret = false)) :
    statusRank (m n) ≤ statusRank (drainPhase ret inproc m n) := by
  unfold drainPhase drainInProcess drainReturned
  by_cases hip : occursInBatch n inproc = true
  · obtain ⟨hd, hr⟩ := h hip
    rw [drainWith_occurs STATUS_IN_PROCESS inproc _ n hip]
    have h2 := statusRank_le_two_of_ne_done (m n) hd
    have h3 : statusRank (some STATUS_IN_PROCESS) = 2 := rfl
    rw [h3]
    exact h2
  · have hb : occursInBatch n inproc = false := by simpa using hip
    rw [drainWith_not_occurs STATUS_IN_PROCESS inproc _ n hb]
    by_cases hrt : occursInBatch n ret = true
    · rw [drainWith_occurs STATUS_DONE ret m n hrt]
      have h3 : statusRank (some STATUS_DONE) = 3 := rfl
      rw [h3]
      exact statusRank_le_three (m n)
    · have hbf : occursInBatch n ret = false := by simpa using hrt
      rw [drainWith_not_occurs STATUS_DONE ret m n hbf]

/-- Claim C1, witness for the amended theorem at a concrete drain
cycle: returned batch `[[2]]`, in-process batch `[[1]]`, all statuses
Unprocessed. -/
theorem C1_status_monotone_amended_witness :
    (occursInBatch 1 [[1]] = true →
      ((fun _ => some STATUS_UNPROCESSED : Measurements) 1 ≠ some STATUS_DONE ∧
       occursInBatch 1 [[2]] = false)) ∧
    statusRank ((fun _ => some STATUS_UNPROCESSED : Measurements) 1) ≤
      statusRank (drainPhase [[2]] [[1]] (fun _ => some STATUS_UNPROCESSED) 1) :=
  ⟨by decide,
   C1_status_monotone_amended [[2]] [[1]] (fun _ => some STATUS_UNPROCESSED) 1 (by decide)⟩

/-- Claim C2 (code bug).  On the store with groups
`{1 : [1, 2], 2 : [3]}` over `[1, 4)`, the buggy line 271 replaces only
the last-seen group's dict entry (leaving group 1 as raw tuples), and
the `for job in job_groups` loop iterates the dict's keys, so the work
queue receives the bare group numbers 1 and 2 instead of the two image
lists; serving a WorkRequest then raises TypeError while building the
comma-joined reply, so no GROUP reply with images "1,2" or "3" is ever
produced. -/
theorem C2_grouped_jobs_bug :
    (interfacePre true gnumEx gidxEx true true 1 4 (fun _ => none)).workQueue =
      [(PyJob.key 1, true), (PyJob.key 2, true)] ∧
    buggyAssign gnumEx gidxEx 1 4 =
      [(1, PyVal.tuples [(1, 1), (2, 2)]), (2, PyVal.lists [[1, 2], [3]])] ∧
    handleWorkRequest
        (interfacePre true gnumEx gidxEx true true 1 4 (fun _ => none)).workQueue =
      Except.error PyError.typeError :=
  ⟨rfl, rfl, rfl⟩

/-- Claim C3, counterexample.  When `prepare_group` fails on the
non-grouped path, the controller cancels and enqueues nothing, but
`interface` returns before line 335: the complete event list it posts
is `[AnalysisStarted]`, so no `AnalysisFinished{cancelled=true}` is
emitted, contrary to the claim. -/
theorem C3_no_finished_counterexample :
    (interfacePre false (fun _ => 0) (fun _ => 0) false true 1 4 (fun _ => none)).cancelled
      = true ∧
    (interfacePre false (fun _ => 0) (fun _ => 0) false true 1 4 (fun _ => none)).workQueue
      = [] ∧
    (interfacePre false (fun _ => 0) (fun _ => 0) false true 1 4 (fun _ => none)).events
      = [AEvent.started] ∧
    AEvent.finished true ∉
      (interfacePre false (fun _ => 0) (fun _ => 0) false true 1 4 (fun _ => none)).events :=
  ⟨rfl, rfl, rfl, by decide⟩

/-- Claim C3, amended.  If `prepare_group` fails in the non-grouped
path, the controller cancels the run, enqueues no jobs, clears the
analysis id (which makes the job-server loop exit) and returns
immediately: the only event posted by the controller is
AnalysisStarted; in particular no AnalysisFinished event is emitted on
this path. -/
theorem C3_prepare_group_failure_amended (gnum gidx : Nat → Nat) (overwrite : Bool)
    (start endN : Nat) (m0 : Measurements) :
    (interfacePre false gnum gidx false overwrite start endN m0).cancelled = true ∧
    (interfacePre false gnum gidx false overwrite start endN m0).analysisIdCleared = true ∧
    (interfacePre false gnum gidx false overwrite start endN m0).workQueue = [] ∧
    (interfacePre false gnum gidx false overwrite start endN m0).events = [AEvent.started] ∧
    (interfacePre false gnum gidx false overwrite start endN m0).prepareGroupCalled = true :=
  ⟨rfl, rfl, rfl, rfl, rfl⟩

/-- Claim C4, counterexample.  A MeasurementsReport whose file fails to
load makes the job server reply THANKS and then re-raise: the exception
propagates (`raised`), the serving loop is dead, and a subsequent
WorkRequest is never served (the work queue is untouched and no work
reply is sent); nothing was queued for the controller, and nothing is
logged — contrary to the claimed log-and-continue behaviour. -/
theorem C4_load_failure_counterexample :
    (jsRun "tcp://127.0.0.1:5000" "a2" [(PyJob.ints [2], false)]
        [JSCmd.iter (some (JSReq.measurementsReport false [1])),
         JSCmd.iter (some JSReq.workReq)]).replies = [JSReply.thanks] ∧
    (jsRun "tcp://127.0.0.1:5000" "a2" [(PyJob.ints [2], false)]
        [JSCmd.iter (some (JSReq.measurementsReport false [1])),
         JSCmd.iter (some JSReq.workReq)]).raised = some PyError.loadError ∧
    (jsRun "tcp://127.0.0.1:5000" "a2" [(PyJob.ints [2], false)]
        [JSCmd.iter (some (JSReq.measurementsReport false [1])),
         JSCmd.iter (some JSReq.workReq)]).workQueue = [(PyJob.ints [2], false)] ∧
    (jsRun "tcp://127.0.0.1:5000" "a2" [(PyJob.ints [2], false)]
        [JSCmd.iter (some (JSReq.measurementsReport false [1])),
         JSCmd.iter (some JSReq.workReq)]).returnedQueue = [] :=
  ⟨rfl, rfl, rfl, rfl⟩

/-- Claim C4, amended.  For every MeasurementsReport whose measurements
file fails to load, handled while live and unpaused: the job server
replies THANKS first, then the load failure is re-raised and propagates
out of the serving loop (the `except` clause is a bare `raise`), and a
raised state takes no further step — the thread is terminated, nothing
is logged, and the failed job's image sets are never queued to
`returned_measurements_queue` (un-acked). -/
theorem C4_load_failure_amended (addr id : String) (s : JSState) (nums : List Nat)
    (ha : s.alive = true) (hp : s.paused = false) (hw : s.iWasPausedBefore = false)
    (hc : s.cancelled = false) (he : s.exited = false) (hr : s.raised = none) :
    jsStep addr id s (JSCmd.iter (some (JSReq.measurementsReport false nums))) =
      { s with anns := s.anns ++ [(addr, id)],
               replies := s.replies ++ [JSReply.thanks],
               raised := some PyError.loadError } ∧
    (∀ (s2 : JSState) (c : JSCmd), s2.raised.isSome = true → jsStep addr id s2 c = s2) := by
  constructor
  · unfold jsStep jsIter jsPauseBlock jsResumeBlock handleReq
    simp [ha, hp, hw, hc, he, hr]
  · intro s2 c h2
    unfold jsStep
    simp [h2]

/-- Claim C4, witness at the initial job-server state. -/
theorem C4_load_failure_amended_witness :
    (jsStep "tcp://127.0.0.1:5000" "a3" (jsInit [])
        (JSCmd.iter (some (JSReq.measurementsReport false [7]))) =
      { jsInit [] with anns := (jsInit []).anns ++ [("tcp://127.0.0.1:5000", "a3")],
                       replies := (jsInit []).replies ++ [JSReply.thanks],
                       raised := some PyError.loadError }) ∧
    (∀ (s2 : JSState) (c : JSCmd), s2.raised.isSome = true →
      jsStep "tcp://127.0.0.1:5000" "a3" s2 c = s2) :=
  C4_load_failure_amended "tcp://127.0.0.1:5000" "a3" (jsInit []) [7]
    rfl rfl rfl rfl rfl rfl

/-- Claim C5 (confirmed).  `Analysis.start` raises AssertionError (the
spec's BusyError) whenever a run is in progress; otherwise it records
the fresh run id, constructs the Runner, performs exactly one
synchronous `prepare_run`, flushes the initial measurements store
before either task is launched (the action list is in execution
order), and returns the new id. -/
theorem C5_start (s : AnalysisState) (freshId : String) :
    (s.analysis_in_progress ≠ none →
      analysisStart s freshId = Except.error PyError.assertionError) ∧
    (s.analysis_in_progress = none →
      analysisStart s freshId =
        Except.ok (freshId,
          { analysis_in_progress := some freshId, runnerPresent := true },
          [StartAction.constructRunner, StartAction.prepareRun,
           StartAction.flushInitialMeasurements, StartAction.launchInterfaceThread,
           StartAction.launchJobserverThread]) ∧
      (StartAction.constructRunner :: runnerStartActions).count StartAction.prepareRun = 1) := by
  constructor
  · intro h
    cases hs : s.analysis_in_progress with
    | none => exact absurd hs h
    | some v => simp [analysisStart, hs]
  · intro h
    refine ⟨by simp [analysisStart, h, runnerStartActions], by decide⟩

/-- Claim C5, witness: a busy facade fails, an idle one starts. -/
theorem C5_start_witness :
    (analysisStart { analysis_in_progress := some "run0", runnerPresent := true } "f1" =
      Except.error PyError.assertionError) ∧
    (analysisStart { analysis_in_progress := none, runnerPresent := false } "f1" =
      Except.ok ("f1", { analysis_in_progress := some "f1", runnerPresent := true },
        [StartAction.constructRunner, StartAction.prepareRun,
         StartAction.flushInitialMeasurements, StartAction.launchInterfaceThread,
         StartAction.launchJobserverThread]) ∧
     (StartAction.constructRunner :: runnerStartActions).count StartAction.prepareRun = 1) :=
  ⟨(C5_start { analysis_in_progress := some "run0", runnerPresent := true } "f1").1
      (by simp),
   (C5_start { analysis_in_progress := none, runnerPresent := false } "f1").2 rfl⟩

/-- Claim C6 (confirmed).  A WorkRequest on an empty `work_queue` is
answered `jobtype NONE` with no images field and nothing is dispatched;
on a non-empty queue whose head is a (non-empty) image-set list job,
exactly that job is popped, the reply is GROUP with the comma-joined
numbers when grouping is needed and IMAGE with `str(job[0])` otherwise,
and the job is pushed onto `in_process_queue` with the controller
notified. -/
theorem C6_work_request (wq : List (PyJob × Bool)) :
    (wq = [] →
      handleWorkRequest wq =
        Except.ok { reply := { jobtype := JobType.noJob, images := none },
                    remaining := [], inProcessPush := none, controllerNotified := false }) ∧
    (∀ (l : List Nat) (g : Bool) (rest : List (PyJob × Bool)),
      wq = (PyJob.ints l, g) :: rest → l ≠ [] →
      handleWorkRequest wq =
        Except.ok { reply := { jobtype := if g then JobType.group else JobType.image,
                               images := some (if g then commaJoin l else toString l.headI) },
                    remaining := rest, inProcessPush := some (PyJob.ints l),
                    controllerNotified := true }) := by
  constructor
  · intro h
    subst h
    rfl
  · intro l g rest hwq hl
    subst hwq
    cases l with
    | nil => exact absurd rfl hl
    | cons n t => cases g <;> simp [handleWorkRequest, List.headI]

/-- Claim C6, witness: the empty queue and a grouped two-image job. -/
theorem C6_work_request_witness :
    handleWorkRequest [] =
      Except.ok { reply := { jobtype := JobType.noJob, images := none },
                  remaining := [], inProcessPush := none, controllerNotified := false } ∧
    handleWorkRequest [(PyJob.ints [5, 7], true)] =
      Except.ok { reply := { jobtype := if true then JobType.group else JobType.image,
                             images := some (if true then commaJoin [5, 7]
                                             else toString (List.headI [5, 7])) },
                  remaining := [], inProcessPush := some (PyJob.ints [5, 7]),
                  controllerNotified := true } :=
  ⟨(C6_work_request []).1 rfl,
   (C6_work_request [(PyJob.ints [5, 7], true)]).2 [5, 7] true [] rfl (by decide)⟩

/-- Claim C7 (confirmed).  Over any job-server execution: the
AnalysisPaused/AnalysisResumed subsequence of posted events alternates
strictly starting with Paused; any command segment containing no
resume adds at most one AnalysisPaused to the trace (so N consecutive
`pause()` calls emit at most one, and a whole run without `resume()`
posts at most one); and the controller's pre-loop posts no Paused
event at all. -/
theorem C7_pause_events (addr id : String) :
    (∀ (wq : List (PyJob × Bool)) (cmds : List JSCmd),
        (altScan (jsRun addr id wq cmds).events).isSome = true) ∧
    (∀ (s : JSState) (cmds : List JSCmd), JSCmd.resumeCmd ∉ cmds →
        countPaused (cmds.foldl (jsStep addr id) s).events ≤ countPaused s.events + 1) ∧
    (∀ (wq : List (PyJob × Bool)) (cmds : List JSCmd), JSCmd.resumeCmd ∉ cmds →
        countPaused (jsRun addr id wq cmds).events ≤ 1) ∧
    (∀ (hasGroups : Bool) (gnum gidx : Nat → Nat) (pgOk overwrite : Bool)
        (start endN : Nat) (m0 : Measurements),
        countPaused (interfacePre hasGroups gnum gidx pgOk overwrite start endN m0).events
          = 0) := by
  refine ⟨?_, ?_, ?_, ?_⟩
  · intro wq cmds
    have h := jsRun_altInv addr id wq cmds
    unfold AltInv at h
    rw [h]
    rfl
  · intro s cmds hnr
    exact jsSeq_pause_bound addr id s cmds hnr
  · intro wq cmds hnr
    have h := jsSeq_pause_bound addr id (jsInit wq) cmds hnr
    simpa [jsRun, jsInit, countPaused] using h
  · intro hasGroups gnum gidx pgOk overwrite start endN m0
    unfold interfacePre
    cases hasGroups <;> cases pgOk <;> rfl

/-- Claim C7, witness: three consecutive pauses with no resume. -/
theorem C7_pause_events_witness :
    countPaused (jsRun "tcp://127.0.0.1:5000" "a1" []
      [JSCmd.pauseCmd, JSCmd.iter none, JSCmd.pauseCmd, JSCmd.iter none,
       JSCmd.pauseCmd, JSCmd.iter (some JSReq.workReq)]).events ≤ 1 :=
  (C7_pause_events "tcp://127.0.0.1:5000" "a1").2.2.1 []
    [JSCmd.pauseCmd, JSCmd.iter none, JSCmd.pauseCmd, JSCmd.iter none,
     JSCmd.pauseCmd, JSCmd.iter (some JSReq.workReq)] (by decide)

/-- Claim C8, counterexample.  If a handler raises — here a
MeasurementsReport whose file fails to load — the exception propagates
past line 408, so the job server dies without ever publishing
`("DONE", id)`: the announcement sequence for this id contains zero
DONE messages, not exactly one. -/
theorem C8_done_counterexample :
    (jsRun "tcp://127.0.0.1:5000" "a4" []
        [JSCmd.iter (some (JSReq.measurementsReport false [1]))]).raised
      = some PyError.loadError ∧
    doneCount "a4" (jsRun "tcp://127.0.0.1:5000" "a4" []
        [JSCmd.iter (some (JSReq.measurementsReport false [1]))]).anns = 0 :=
  ⟨rfl, rfl⟩

/-- Claim C8, amended.  Whenever the serving loop exits normally
(cancel break, or `analysis_id` changed — no handler exception), the
announcements published for the analysis id contain exactly one
`("DONE", id)`, and it is the last announcement (hence published after
the loop exits). -/
theorem C8_done_amended (addr id : String) (wq : List (PyJob × Bool)) (cmds : List JSCmd)
    (haddr : addr ≠ "DONE") (hexit : (jsRun addr id wq cmds).exited = true) :
    doneCount id (jsRun addr id wq cmds).anns = 1 ∧
    (jsRun addr id wq cmds).anns.getLast? = some ("DONE", id) :=
  (jsRun_doneInv addr id haddr wq cmds).2 hexit

/-- Claim C8, witness: the controller ends the analysis and the next
loop iteration exits, publishing the single DONE announcement last. -/
theorem C8_done_amended_witness :
    doneCount "a5" (jsRun "tcp://127.0.0.1:5000" "a5" []
        [JSCmd.endAnalysis, JSCmd.iter none]).anns = 1 ∧
    (jsRun "tcp://127.0.0.1:5000" "a5" []
        [JSCmd.endAnalysis, JSCmd.iter none]).anns.getLast? = some ("DONE", "a5") :=
  C8_done_amended "tcp://127.0.0.1:5000" "a5" [] [JSCmd.endAnalysis, JSCmd.iter none]
    (by decide) rfl

/-- Claim C9 (code bug).  `stop_workers` on a started pool of two
workers raises AttributeError: it iterates `cls.deadman_swtiches`, a
misspelling of the `deadman_switches` attribute the pool actually
carries, so no deadman stream is closed and the pool is not emptied. -/
theorem C9_stop_workers_typo :
    stop_workers (start_workers 2) = Except.error PyError.attributeError ∧
    (start_workers 2).attrs.lookup "deadman_swtiches" = none ∧
    (start_workers 2).attrs.lookup "deadman_switches" = some (AttrVal.streams [0, 1]) ∧
    (start_workers 2).attrs.lookup "workers" = some (AttrVal.procs [0, 1]) :=
  ⟨rfl, rfl, rfl, rfl⟩

/-- Claim C10 (confirmed).  With no run in progress
(`analysis_in_progress` falsy — never started or already cancelled),
`check` returns False without evaluating the runner handle (here the
handle access would raise, yet `check` still succeeds), while
`pause_analysis`, `resume_analysis` and `cancel_analysis` all raise
AssertionError instead of acting as no-ops. -/
theorem C10_no_run_ops (s : AnalysisState) (runnerCheck : Except PyError Bool)
    (h : s.analysis_in_progress = none) :
    analysisCheck s runnerCheck = Except.ok false ∧
    pause_analysis s = Except.error PyError.assertionError ∧
    resume_analysis s = Except.error PyError.assertionError ∧
    cancel_analysis s = Except.error PyError.assertionError := by
  refine ⟨?_, ?_, ?_, ?_⟩ <;>
    simp [analysisCheck, pause_analysis, resume_analysis, cancel_analysis, h]

/-- Claim C10, witness: a facade that was never started (runner handle
absent, so touching it would raise AttributeError). -/
theorem C10_no_run_ops_witness :
    analysisCheck { analysis_in_progress := none, runnerPresent := false }
        (Except.error PyError.attributeError) = Except.ok false ∧
    pause_analysis { analysis_in_progress := none, runnerPresent := false } =
      Except.error PyError.assertionError ∧
    resume_analysis { analysis_in_progress := none, runnerPresent := false } =
      Except.error PyError.assertionError ∧
    cancel_analysis { analysis_in_progress := none, runnerPresent := false } =
      Except.error PyError.assertionError :=
  C10_no_run_ops { analysis_in_progress := none, runnerPresent := false }
    (Except.error PyError.attributeError) rfl

end CPAnalysis
